import Mathlib

/-!
Verification of the NutriScan structured-extraction pipeline (src/app.py)
against its natural-language specification.

The Python source is a Streamlit script.  We shallowly embed the parts the
claims are about: the pydantic schema contract, the dynamic (duck-typed)
access into the JSON dict returned by `json.loads`, the per-request rendering
loops of both tabs, the additive color classifier, the alternatives prompt
builder, and the image-URL construction.  Python exceptions (`KeyError`,
`AttributeError`, `TypeError`, `json.JSONDecodeError`) are modelled as an
explicit error type; Streamlit emissions (`st.markdown`, `st.image`,
`st.error`, ...) are modelled as an ordered list of structured output items,
so that "what the user saw before the failure" is preserved exactly as the
real script preserves it (side effects already performed are not undone by
the `except` handler).
-/

namespace NutriScan

/-- A parsed JSON value, the result of `json.loads` in src/app.py
(line 135 and line 191).  Objects keep their field list; Python dict
construction from JSON lets a later duplicate key override an earlier one,
which `lookupField` reproduces. -/
inductive Json where
  | null : Json
  | bool (b : Bool) : Json
  | num (n : Int) : Json
  | str (s : String) : Json
  | arr (elems : List Json) : Json
  | obj (fields : List (String × Json)) : Json

/-- The Python exceptions that the dynamic dict access in src/app.py can
raise, plus the `json.JSONDecodeError` from `json.loads`.  All of them are
caught by the blanket `except Exception as e` handlers (lines 165-167 and
211-212). -/
inductive PyError where
  | keyError (field : String) : PyError
  | attributeError : PyError
  | pyTypeError : PyError
  | jsonDecodeError (msg : String) : PyError
deriving DecidableEq

/-- One user-visible output item emitted by the script.  Each constructor
corresponds to one `st.markdown` / `st.image` / `st.write` / `st.error`
call site in src/app.py; static markup is carried by the constructor, the
dynamic parts (values interpolated into the f-strings) are the arguments. -/
inductive Out where
  /-- line 139: the `<h3>` product title, with `.upper()` applied. -/
  | title (product_name : String) : Out
  /-- lines 108/142/173/196: `st.markdown("<div class='glass-card'...>")`. -/
  | cardOpen : Out
  /-- line 143: the "AI Insights" header. -/
  | insightsHeader : Out
  /-- line 145: one `<li>{insight}</li>` item. -/
  | insight (v : Json) : Out
  /-- lines 146/209: `st.markdown("</div>")`. -/
  | cardClose : Out
  /-- lines 150-152: one of the three macro cards (label is the static
  `<b>` text, `v` the interpolated JSON value). -/
  | macroCard (label : String) (v : Json) : Out
  /-- line 155: the "Additive Breakdown" header. -/
  | additivesHeader : Out
  /-- lines 158-163: one additive card; `color` is the computed accent
  color, the other arguments the interpolated dict values. -/
  | additiveCard (color : String) (add_name e_number explanation : Json) : Out
  /-- line 193: `st.markdown(f"### Better choices instead of {q}:")`. -/
  | betterChoicesHeader (query : String) : Out
  /-- line 203: `st.image(image_url, ...)`. -/
  | altImage (url : String) : Out
  /-- line 206: the alternative's `<h4>` name. -/
  | altName (v : Json) : Out
  /-- line 207: `st.write(alt['reason'])`. -/
  | altReason (v : Json) : Out
  /-- line 167: `st.error(e)` in the scanner tab's exception handler. -/
  | errorMsg (e : PyError) : Out
  /-- line 212: `st.error(f"Search failed: {e}")` in the search tab. -/
  | searchErrorMsg (e : PyError) : Out

/-! ## The pydantic schema contract (src/app.py lines 67-88) -/

/-- `class Additive(BaseModel)` (lines 67-71).  `risk_level` is declared as
a plain `str` — the source comment says `"Red", "Yellow", or "Green"`, but
pydantic accepts any string here. -/
structure Additive where
  name : String
  e_number : String
  explanation : String
  risk_level : String

/-- `class ScanResult(BaseModel)` (lines 73-80), the response schema sent
with the scanner request.  Note: it has no health-rating and no verdict
field. -/
structure ScanResult where
  product_identified : String
  psychological_insights : List String
  calories_estimate : String
  sugar_levels : String
  sodium_levels : String
  preservatives_found : List String
  additives : List Additive

/-- `class Alternative(BaseModel)` (lines 82-85). -/
structure Alternative where
  name : String
  reason : String
  image_search_prompt : String

/-- `class AltSearch(BaseModel)` (lines 87-88), the response schema sent
with the alternatives request. -/
structure AltSearch where
  alternatives : List Alternative

/-! ## Python dict / iteration semantics used by the rendering code -/

/-- Lookup of a key in a Python dict built from a JSON object: the last
binding of a duplicated key wins. -/
def lookupField (fields : List (String × Json)) (k : String) : Option Json :=
  fields.foldl (fun acc p => if p.1 = k then some p.2 else acc) none

/-- Python subscript `j[k]` with a string key: on a dict it returns the
value or raises `KeyError(k)`; on any non-dict it raises `TypeError`. -/
def getItem (j : Json) (k : String) : Except PyError Json :=
  match j with
  | .obj fields =>
      match lookupField fields k with
      | some v => .ok v
      | none => .error (.keyError k)
  | _ => .error .pyTypeError

/-- Python `for x in j`: a list yields its elements, a string yields its
characters, a dict yields its keys, anything else raises `TypeError`. -/
def pyIter (j : Json) : Except PyError (List Json) :=
  match j with
  | .arr elems => .ok elems
  | .str s => .ok (s.data.map fun c => .str (String.mk [c]))
  | .obj fields => .ok (fields.map fun p => .str p.1)
  | _ => .error .pyTypeError

/-! ## The additive color classifier (src/app.py line 157) -/

/-- The three literal accent colors of line 157. -/
def redHex : String := "#FF4B4B"

def yellowHex : String := "#FFD166"

def greenHex : String := "#06D6A0"

/-- Line 157 on a string risk level:
`color = "#FF4B4B" if rl == "Red" else "#FFD166" if rl == "Yellow" else "#06D6A0"`.
A conditional expression: total, never raises. -/
def additive_color (risk_level : String) : String :=
  if risk_level = "Red" then redHex
  else if risk_level = "Yellow" then yellowHex
  else greenHex

/-- Line 157 on the raw JSON value of `add['risk_level']`: Python `==`
between a non-string and the literals `"Red"` / `"Yellow"` is `False`, so
every non-string value falls through to the final `else`. -/
def additive_color_j (v : Json) : String :=
  match v with
  | .str s => additive_color s
  | _ => greenHex

/-! ## Scanner tab rendering (src/app.py lines 135-167) -/

/-- Lines 156-163, one loop iteration: compute the accent color from
`add['risk_level']`, then emit the card whose f-string reads `add['name']`,
`add['e_number']`, `add['explanation']` in that order.  A missing key
raises before the card is emitted. -/
def renderAdditiveItem (add : Json) : List Out × Option PyError :=
  match getItem add "risk_level" with
  | .error e => ([], some e)
  | .ok risk =>
      match getItem add "name" with
      | .error e => ([], some e)
      | .ok nm =>
          match getItem add "e_number" with
          | .error e => ([], some e)
          | .ok en =>
              match getItem add "explanation" with
              | .error e => ([], some e)
              | .ok ex => ([.additiveCard (additive_color_j risk) nm en ex], none)

/-- The `for add in data['additives']` loop (line 156): items already
rendered stay on screen when a later iteration raises. -/
def renderAdditives (adds : List Json) : List Out × Option PyError :=
  match adds with
  | [] => ([], none)
  | a :: rest =>
      match renderAdditiveItem a with
      | (outs, some e) => (outs, some e)
      | (outs, none) =>
          let tail := renderAdditives rest
          (outs ++ tail.1, tail.2)

/-- The `for insight in data['psychological_insights']` loop (lines
144-145): each element is interpolated into an `<li>` f-string, which
cannot fail. -/
def renderInsights (insights : List Json) : List Out :=
  insights.map Out.insight

/-- Python `str.upper()` as used on line 139, modelled character-wise
(ASCII case mapping, which covers the product names concerned). -/
def pyUpper (s : String) : String :=
  String.mk (s.data.map Char.toUpper)

/-- Lines 139-163: everything the scanner tab renders from the parsed
`data` dict, paired with the first Python exception raised (if any).
Evaluation order follows the source exactly: each dict access happens at
the line that interpolates it, after the emissions of the earlier lines. -/
def scanBody (data : Json) : List Out × Option PyError :=
  match getItem data "product_identified" with
  | .error e => ([], some e)
  | .ok v =>
      match v with
      | .str product_name =>
          let outs0 := [Out.title (pyUpper product_name), Out.cardOpen, Out.insightsHeader]
          match getItem data "psychological_insights" with
          | .error e => (outs0, some e)
          | .ok ij =>
              match pyIter ij with
              | .error e => (outs0, some e)
              | .ok items =>
                  let outs1 := outs0 ++ renderInsights items ++ [Out.cardClose]
                  match getItem data "calories_estimate" with
                  | .error e => (outs1, some e)
                  | .ok cal =>
                      let outs2 := outs1 ++ [Out.macroCard "Calories" cal]
                      match getItem data "sugar_levels" with
                      | .error e => (outs2, some e)
                      | .ok sug =>
                          let outs3 := outs2 ++ [Out.macroCard "Sugar" sug]
                          match getItem data "sodium_levels" with
                          | .error e => (outs3, some e)
                          | .ok sod =>
                              let outs4 := outs3 ++ [Out.macroCard "Sodium" sod,
                                Out.additivesHeader]
                              match getItem data "additives" with
                              | .error e => (outs4, some e)
                              | .ok aj =>
                                  match pyIter aj with
                                  | .error e => (outs4, some e)
                                  | .ok adds =>
                                      let tail := renderAdditives adds
                                      (outs4 ++ tail.1, tail.2)
      | _ => ([], some .attributeError)

/-- The scanner tab's whole try/except (lines 128-167) after the service
call returned raw text: `json.loads` failure, or any exception raised while
rendering, lands in the blanket handler, which shows the single
`st.error(e)` message after whatever was already rendered. -/
def nav_scan (parsed : Except String Json) : List Out :=
  match parsed with
  | .error msg => [.errorMsg (.jsonDecodeError msg)]
  | .ok data =>
      match scanBody data with
      | (outs, none) => outs
      | (outs, some e) => outs ++ [.errorMsg e]

/-! ## The alternatives prompt builder (src/app.py lines 178-182) -/

/-- The f-string text before `{search_query}` (line 178-179), byte-exact
including the 8-space indentation and the single quote. -/
def ALT_PRE : String :=
  "\n        The user is looking for healthy, whole-food alternatives to '"

/-- The f-string text after `{search_query}` (lines 179-182), byte-exact
including the trailing space after "alternatives. " and the final indented
newline before the closing triple quote. -/
def ALT_SUF : String :=
  "'.\n        Provide 3 specific, healthy alternatives. \n        For each, provide a short 'image_search_prompt' (e.g., 'a bowl of hot whole wheat noodles with vegetables').\n        "

/-- Line 178: `alt_prompt = f"""..."""` — the query is interpolated as
plain text between the two fixed literal parts. -/
def alt_prompt (search_query : String) : String :=
  ALT_PRE ++ search_query ++ ALT_SUF

/-! ## URL quoting and the image URL (src/app.py lines 201-202) -/

/-- UTF-8 encoding of one character, as Python's `str.encode('utf-8')`
produces it byte by byte (CPython encodes the string before percent-quoting
in `urllib.parse.quote`). -/
def charUtf8 (c : Char) : List Nat :=
  let n := c.toNat
  if n < 0x80 then [n]
  else if n < 0x800 then
    [0xC0 ||| (n >>> 6), 0x80 ||| (n &&& 0x3F)]
  else if n < 0x10000 then
    [0xE0 ||| (n >>> 12), 0x80 ||| ((n >>> 6) &&& 0x3F), 0x80 ||| (n &&& 0x3F)]
  else
    [0xF0 ||| (n >>> 18), 0x80 ||| ((n >>> 12) &&& 0x3F),
      0x80 ||| ((n >>> 6) &&& 0x3F), 0x80 ||| (n &&& 0x3F)]

/-- The bytes `urllib.parse.quote` leaves unescaped with its default
arguments: the always-safe set (ASCII letters, digits, `_ . - ~`) plus the
default `safe='/'`. -/
def isAlwaysSafe (b : Nat) : Bool :=
  (0x41 ≤ b && b ≤ 0x5A) || (0x61 ≤ b && b ≤ 0x7A) || (0x30 ≤ b && b ≤ 0x39)
    || b == 0x5F || b == 0x2E || b == 0x2D || b == 0x7E || b == 0x2F

/-- Uppercase hex digit, as `urllib.parse.quote` writes escapes (`%20`). -/
def hexDigit (n : Nat) : Char :=
  "0123456789ABCDEF".data.getD n '0'

/-- Percent-quoting of one byte: safe bytes pass through, every other byte
becomes `%` followed by two uppercase hex digits. -/
def quoteByte (b : Nat) : List Char :=
  if isAlwaysSafe b then [Char.ofNat b]
  else ['%', hexDigit (b / 16), hexDigit (b % 16)]

/-- Line 201: `urllib.parse.quote(alt['image_search_prompt'])` with the
default `safe='/'`: encode to UTF-8, then percent-quote byte by byte. -/
def quote (s : String) : String :=
  String.mk ((s.data.flatMap charUtf8).flatMap quoteByte)

/-- Line 202: the image-generation lookup URL — the quoted prompt
substituted into a fixed template with fixed dimensions 400×400. -/
def image_url (image_search_prompt : String) : String :=
  "https://image.pollinations.ai/prompt/" ++ quote image_search_prompt
    ++ "?width=400&height=400&nologo=true"

/-! ## Search tab rendering (src/app.py lines 191-212) -/

/-- Lines 196-209, one loop iteration: the card opens, column A builds and
shows the image URL from `alt['image_search_prompt']`, column B shows
`alt['name']` then `alt['reason']`, and the card closes.  `urllib.parse.quote`
raises `TypeError` on a non-string argument. -/
def renderAltItem (alt : Json) : List Out × Option PyError :=
  match getItem alt "image_search_prompt" with
  | .error e => ([Out.cardOpen], some e)
  | .ok pj =>
      match pj with
      | .str p =>
          match getItem alt "name" with
          | .error e => ([Out.cardOpen, Out.altImage (image_url p)], some e)
          | .ok nm =>
              match getItem alt "reason" with
              | .error e =>
                  ([Out.cardOpen, Out.altImage (image_url p), Out.altName nm], some e)
              | .ok rs =>
                  ([Out.cardOpen, Out.altImage (image_url p), Out.altName nm,
                    Out.altReason rs, Out.cardClose], none)
      | _ => ([Out.cardOpen], some .pyTypeError)

/-- The `for alt in alt_data['alternatives']` loop (line 195): no length
check anywhere — every element of the list is rendered, in order. -/
def renderAltList (alts : List Json) : List Out × Option PyError :=
  match alts with
  | [] => ([], none)
  | a :: rest =>
      match renderAltItem a with
      | (outs, some e) => (outs, some e)
      | (outs, none) =>
          let tail := renderAltList rest
          (outs ++ tail.1, tail.2)

/-- Lines 193-209: the header is emitted first, then `alt_data['alternatives']`
is looked up and iterated. -/
def searchBody (query : String) (data : Json) : List Out × Option PyError :=
  let hd := [Out.betterChoicesHeader query]
  match getItem data "alternatives" with
  | .error e => (hd, some e)
  | .ok aj =>
      match pyIter aj with
      | .error e => (hd, some e)
      | .ok alts =>
          let tail := renderAltList alts
          (hd ++ tail.1, tail.2)

/-- The search tab's whole flow after the service call (lines 177-212):
nothing runs for an empty query (`if search_query:` — Python falsiness);
otherwise parse failure or any rendering exception lands in the blanket
handler (line 212), which shows one "Search failed" message. -/
def nav_search (query : String) (parsed : Except String Json) : List Out :=
  if query = "" then []
  else
    match parsed with
    | .error msg => [.searchErrorMsg (.jsonDecodeError msg)]
    | .ok data =>
        match searchBody query data with
        | (outs, none) => outs
        | (outs, some e) => outs ++ [.searchErrorMsg e]

/-! ## Startup and the credential (src/app.py lines 94-99) -/

/-- The error message of line 98. -/
def lockMsg : String := "🔒 App locked. Add API Key to Streamlit Secrets."

/-- The state the script is in after the try/except of lines 94-99:
either `st.stop()` was reached (the script run ends there, nothing below
line 99 executes) or a client was constructed from the secret. -/
inductive AppStart where
  | locked (msg : String) : AppStart
  | ready (api_key : String) : AppStart
deriving DecidableEq

/-- Lines 94-99: `st.secrets["GEMINI_API_KEY"]` raises `KeyError` when the
secret is absent; the handler shows the lock message and calls
`st.stop()`. -/
def app_start (secrets : List (String × String)) : AppStart :=
  match secrets.lookup "GEMINI_API_KEY" with
  | none => .locked lockMsg
  | some k => .ready k

/-- How many reasoning-service calls (`client.models.generate_content`,
lines 130 and 186) one script run issues: one per submitted scan image and
one per non-empty search query — but none at all when the script stopped at
line 99, because `st.stop()` halts execution before either tab's code. -/
def service_calls (start : AppStart) (scan_submitted search_submitted : Bool) : Nat :=
  match start with
  | .locked _ => 0
  | .ready _ =>
      (if scan_submitted then 1 else 0) + (if search_submitted then 1 else 0)

/-! ## The tier classifier of the specification -/

/-- The display tier enum of the spec (§3): derived, not stored. -/
inductive Tier where
  | Good : Tier
  | Caution : Tier
  | Poor : Tier
deriving DecidableEq

/-- Severity rank used to state monotonicity: Poor < Caution < Good. -/
def Tier.rank : Tier → Nat
  | .Poor => 0
  | .Caution => 1
  | .Good => 2

/-- Modelled from the spec: the Tier Classifier's `verdictTier` (§4.5)
operates on `healthRating`, a field of the spec's `AnalysisResult` that the
`ScanResult` schema in src/app.py does not have; the classifier itself
appears in no file under src/ (the spec's §9 describes five near-duplicate
variant scripts of which only one is in the repository snapshot).
Definition follows §4.5 verbatim: `rating ≥ 7 → Good`;
`4 ≤ rating < 7 → Caution`; `rating < 4 → Poor`. -/
def verdictTier (healthRating : Nat) : Tier :=
  if 7 ≤ healthRating then .Good
  else if 4 ≤ healthRating then .Caution
  else .Poor

/-! ## Helpers for stating the claims -/

/-- Substring test on character lists (needle, haystack). -/
def containsSub (needle hay : List Char) : Bool :=
  match hay with
  | [] => needle.isEmpty
  | _ :: t => needle.isPrefixOf hay || containsSub needle t

/-- Characters that may appear in a properly URL-encoded path segment
produced by `quote`: the unescaped safe set plus `%` and hex digits. -/
def isUrlChar (c : Char) : Bool :=
  c ∈ "ABCDEFGHIJKLMNOPQRSTUVWXYZabcdefghijklmnopqrstuvwxyz0123456789_.-~/%".data

/-- The failure taxonomy the spec's §4.4/§7 prescribes, side by side with
what the code actually raises, so that the two can be compared:
`schemaMismatch` is the typed `ValidationError::SchemaMismatch(field)` of
the spec (no code path produces it), `untypedLookup` is a Python `KeyError`
from duck-typed dict access, `malformed` a JSON parse failure,
`pythonDynamic` an `AttributeError`/`TypeError` from dynamic typing. -/
inductive FailureKind where
  | schemaMismatch (field : String) : FailureKind
  | untypedLookup (field : String) : FailureKind
  | malformed : FailureKind
  | pythonDynamic : FailureKind
deriving DecidableEq

/-- Classify a raised Python exception in the spec's taxonomy. -/
def classifyFailure : PyError → FailureKind
  | .keyError f => .untypedLookup f
  | .jsonDecodeError _ => .malformed
  | .attributeError => .pythonDynamic
  | .pyTypeError => .pythonDynamic

/-- Is an output item one of the two `st.error` messages? -/
def isErrorOut : Out → Bool
  | .errorMsg _ => true
  | .searchErrorMsg _ => true
  | _ => false

/-- No `st.error` message occurs in the list. -/
def okOuts (l : List Out) : Bool :=
  l.all fun o => !isErrorOut o

/-- The JSON object a schema-conformant `Additive` serializes to — what the
reasoning service is asked to emit for one element of `additives`. -/
def Additive.toJson (a : Additive) : Json :=
  .obj [("name", .str a.name), ("e_number", .str a.e_number),
    ("explanation", .str a.explanation), ("risk_level", .str a.risk_level)]

/-- The JSON object a schema-conformant `Alternative` serializes to. -/
def Alternative.toJson (a : Alternative) : Json :=
  .obj [("name", .str a.name), ("reason", .str a.reason),
    ("image_search_prompt", .str a.image_search_prompt)]

/-- The five output items lines 196-209 emit for one alternative. -/
def altCardOuts (a : Alternative) : List Out :=
  [.cardOpen, .altImage (image_url a.image_search_prompt), .altName (.str a.name),
    .altReason (.str a.reason), .cardClose]

/-! # Theorems -/

/-! ## Shared helper lemmas -/

theorem additive_color_cases (s : String) :
    additive_color s = redHex ∨ additive_color s = yellowHex ∨
      additive_color s = greenHex := by
  unfold additive_color
  split_ifs <;> simp

theorem renderAdditiveItem_toJson (a : Additive) :
    renderAdditiveItem (Additive.toJson a) =
      ([.additiveCard (additive_color a.risk_level) (.str a.name) (.str a.e_number)
        (.str a.explanation)], none) := rfl

/-- Claim C1 (spec-modelled — see `verdictTier`): on every rating in 0..10
the classifier follows the boundary table of §4.5 (≥ 7 Good, 4..6 Caution,
< 4 Poor), it is monotone in the rating, and the five edge ratings
3, 4, 6, 7, 10 classify as Poor, Caution, Caution, Good, Good.  Purity and
totality hold by construction: `verdictTier` is a total function. -/
theorem C1_verdictTier_boundary_table :
    (∀ r : Nat, r ≤ 10 →
      (7 ≤ r → verdictTier r = .Good) ∧
      (4 ≤ r → r < 7 → verdictTier r = .Caution) ∧
      (r < 4 → verdictTier r = .Poor)) ∧
    (∀ r s : Nat, r ≤ s → (verdictTier r).rank ≤ (verdictTier s).rank) ∧
    verdictTier 3 = .Poor ∧ verdictTier 4 = .Caution ∧ verdictTier 6 = .Caution ∧
    verdictTier 7 = .Good ∧ verdictTier 10 = .Good := by
  refine ⟨?_, ?_, by decide, by decide, by decide, by decide, by decide⟩
  · intro r _
    unfold verdictTier
    refine ⟨fun h7 => ?_, fun h4 h7 => ?_, fun h4 => ?_⟩ <;>
      split_ifs <;> first | rfl | (exfalso; omega)
  · intro r s hrs
    unfold verdictTier
    split_ifs <;> first | decide | (exfalso; omega)

/-- Witness for C1 at concrete ratings. -/
theorem C1_verdictTier_boundary_table_witness :
    verdictTier 6 = .Caution ∧ (verdictTier 2).rank ≤ (verdictTier 9).rank :=
  ⟨(C1_verdictTier_boundary_table.1 6 (by decide)).2.1 (by decide) (by decide),
    C1_verdictTier_boundary_table.2.1 2 9 (by decide)⟩

/-- Claim C2: the classifier of line 157 maps the three risk tokens 1:1 —
the most severe token "Red" to the red accent `#FF4B4B`, "Yellow" to the
yellow accent `#FFD166`, "Green" to the green accent `#06D6A0`; the three
colors are pairwise distinct; and every rendered additive card carries
exactly the color computed from its own `risk_level`. -/
theorem C2_additive_color_one_to_one :
    additive_color "Red" = redHex ∧ additive_color "Yellow" = yellowHex ∧
    additive_color "Green" = greenHex ∧
    redHex ≠ yellowHex ∧ redHex ≠ greenHex ∧ yellowHex ≠ greenHex ∧
    ∀ a : Additive, renderAdditiveItem (Additive.toJson a) =
      ([.additiveCard (additive_color a.risk_level) (.str a.name) (.str a.e_number)
        (.str a.explanation)], none) := by
  refine ⟨by decide, by decide, by decide, by decide, by decide, by decide, ?_⟩
  exact renderAdditiveItem_toJson

/-- Witness for C2 at a concrete rendered additive. -/
theorem C2_additive_color_one_to_one_witness :
    renderAdditiveItem (Additive.toJson ⟨"Aspartame", "E951", "a sweetener", "Red"⟩) =
      ([.additiveCard (additive_color "Red") (.str "Aspartame") (.str "E951")
        (.str "a sweetener")], none) :=
  C2_additive_color_one_to_one.2.2.2.2.2.2 ⟨"Aspartame", "E951", "a sweetener", "Red"⟩

/-- Claim C3: the color classification is a total function on all strings
(a Python conditional expression: it cannot raise) and always returns one
of exactly the three colors; the same holds for the raw JSON value of
`add['risk_level']`, whatever its type. -/
theorem C3_additive_color_total :
    (∀ s : String, additive_color s = redHex ∨ additive_color s = yellowHex ∨
      additive_color s = greenHex) ∧
    ∀ v : Json, additive_color_j v = redHex ∨ additive_color_j v = yellowHex ∨
      additive_color_j v = greenHex := by
  refine ⟨additive_color_cases, ?_⟩
  intro v
  cases v
  case str s => exact additive_color_cases s
  all_goals simp [additive_color_j]

/-- Claim C4: any risk token other than the three recognized ones falls
through to the final `else` of line 157 — it gets the green (safest) tier,
and the rendered card is identical to the card of the same additive with
its risk level replaced by "Green"; the unrecognized token itself reaches
no output. -/
theorem C4_unrecognized_risk_clamped :
    ∀ s : String, s ≠ "Red" → s ≠ "Yellow" → s ≠ "Green" →
      additive_color s = greenHex ∧
      additive_color s = additive_color "Green" ∧
      ∀ a : Additive, a.risk_level = s →
        renderAdditiveItem (Additive.toJson a) =
          renderAdditiveItem (Additive.toJson { a with risk_level := "Green" }) := by
  intro s h1 h2 _
  have hc : additive_color s = greenHex := by
    unfold additive_color
    rw [if_neg h1, if_neg h2]
  refine ⟨hc, hc.trans (by decide), ?_⟩
  intro a ha
  rw [renderAdditiveItem_toJson, renderAdditiveItem_toJson]
  simp [ha, hc]
  decide

/-- Witness for C4 at the concrete unrecognized token "Purple". -/
theorem C4_unrecognized_risk_clamped_witness :
    additive_color "Purple" = greenHex ∧
    renderAdditiveItem (Additive.toJson ⟨"Tartrazine", "E102", "a dye", "Purple"⟩) =
      renderAdditiveItem (Additive.toJson ⟨"Tartrazine", "E102", "a dye", "Green"⟩) :=
  ⟨(C4_unrecognized_risk_clamped "Purple" (by decide) (by decide) (by decide)).1,
    (C4_unrecognized_risk_clamped "Purple" (by decide) (by decide) (by decide)).2.2
      ⟨"Tartrazine", "E102", "a dye", "Purple"⟩ rfl⟩

/-- Claim C6: when the secrets store holds no `GEMINI_API_KEY`, the script
run ends at line 99 in the locked state with the operator-facing lock
message, and no reasoning-service call is issued — regardless of whether a
scan image or a search query was submitted, so the failure is never
surfaced per request. -/
theorem C6_missing_credential_halts :
    ∀ (secrets : List (String × String)) (scan_submitted search_submitted : Bool),
      secrets.lookup "GEMINI_API_KEY" = none →
      app_start secrets = .locked lockMsg ∧
      service_calls (app_start secrets) scan_submitted search_submitted = 0 := by
  intro secrets a b h
  simp [app_start, h, service_calls]

/-- Witness for C6 with an empty secrets store and both actions submitted. -/
theorem C6_missing_credential_halts_witness :
    app_start [] = .locked lockMsg ∧ service_calls (app_start []) true true = 0 :=
  C6_missing_credential_halts [] true true rfl

theorem containsSub_nil (hay : List Char) : containsSub [] hay = true := by
  cases hay <;> simp [containsSub, List.isEmpty]

theorem containsSub_of_isPrefixOf (n hay : List Char) (h : n.isPrefixOf hay = true) :
    containsSub n hay = true := by
  cases hay with
  | nil =>
      cases n with
      | nil => rfl
      | cons a t => simp at h
  | cons a t => simp [containsSub, h]

theorem containsSub_append_left (pre n hay : List Char)
    (h : containsSub n hay = true) : containsSub n (pre ++ hay) = true := by
  induction pre with
  | nil => simpa using h
  | cons a t ih => simp [containsSub, ih]

theorem containsSub_append_right (n hay post : List Char)
    (h : containsSub n hay = true) : containsSub n (hay ++ post) = true := by
  induction hay with
  | nil =>
      cases n with
      | nil => exact containsSub_nil post
      | cons a t => simp [containsSub, List.isEmpty] at h
  | cons a t ih =>
      simp only [containsSub, Bool.or_eq_true] at h ⊢
      rcases h with h | h
      · left
        rw [List.isPrefixOf_iff_prefix] at h ⊢
        exact h.trans (List.prefix_append (a :: t) post)
      · right
        exact ih h

theorem containsSub_self_append (n t : List Char) : containsSub n (n ++ t) = true :=
  containsSub_of_isPrefixOf _ _ (by simp)

theorem alt_prompt_data (q : String) :
    (alt_prompt q).data = ALT_PRE.data ++ (q.data ++ ALT_SUF.data) := by
  simp [alt_prompt, String.data_append]

set_option maxRecDepth 4096 in
/-- Claim C8 (counterexample): the claim says the FindAlternatives
instruction text asks for a rationale with each alternative.  It does not:
the instruction built for the concrete query "Maggi" contains neither the
word "rationale" nor the word "reason" in either capitalisation (and the
text around the query is fixed, so this holds for every query).  The
`reason` field is requested only through the response schema `AltSearch`
attached to the request config on line 189, not through the instruction
text of lines 178-182. -/
theorem C8_no_rationale_in_instruction :
    containsSub "rationale".data (alt_prompt "Maggi").data = false ∧
    containsSub "Rationale".data (alt_prompt "Maggi").data = false ∧
    containsSub "reason".data (alt_prompt "Maggi").data = false ∧
    containsSub "Reason".data (alt_prompt "Maggi").data = false := by
  exact ⟨by decide, by decide, by decide, by decide⟩

/-- Claim C8 (amended): the instruction text asks the service for 3
whole-food alternatives, each with a short visual-description string
(`image_search_prompt`) — the rationale is requested through the response
schema, not the instruction text — and the query is inserted into the
instruction verbatim as plain text only, between two fixed literal parts
(in particular the insertion is injective and the query text appears in
the instruction unchanged). -/
theorem C8_alt_prompt_plain_text :
    (∀ q, alt_prompt q = ALT_PRE ++ q ++ ALT_SUF) ∧
    (∀ q₁ q₂, alt_prompt q₁ = alt_prompt q₂ → q₁ = q₂) ∧
    (∀ q, containsSub q.data (alt_prompt q).data = true) ∧
    (∀ q, containsSub "Provide 3 specific, healthy alternatives".data
      (alt_prompt q).data = true) ∧
    (∀ q, containsSub "healthy, whole-food alternatives".data
      (alt_prompt q).data = true) ∧
    (∀ q, containsSub "provide a short 'image_search_prompt'".data
      (alt_prompt q).data = true) := by
  refine ⟨fun q => rfl, ?_, ?_, ?_, ?_, ?_⟩
  · intro q₁ q₂ h
    have hd := congrArg String.data h
    rw [alt_prompt_data, alt_prompt_data] at hd
    have h1 := List.append_cancel_left hd
    have h2 := List.append_cancel_right h1
    exact String.ext h2
  · intro q
    rw [alt_prompt_data]
    exact containsSub_append_left _ _ _ (containsSub_self_append _ _)
  · intro q
    rw [alt_prompt_data]
    refine containsSub_append_left _ _ _ (containsSub_append_left _ _ _ ?_)
    decide
  · intro q
    rw [alt_prompt_data]
    refine containsSub_append_right _ _ _ ?_
    decide
  · intro q
    rw [alt_prompt_data]
    refine containsSub_append_left _ _ _ (containsSub_append_left _ _ _ ?_)
    decide

/-- Witness for C8 (amended) at the concrete query "Maggi". -/
theorem C8_alt_prompt_plain_text_witness :
    alt_prompt "Maggi" = ALT_PRE ++ "Maggi" ++ ALT_SUF ∧
    ("Maggi" : String) = "Maggi" ∧
    containsSub "Maggi".data (alt_prompt "Maggi").data = true :=
  ⟨C8_alt_prompt_plain_text.1 "Maggi",
    C8_alt_prompt_plain_text.2.1 "Maggi" "Maggi" rfl,
    C8_alt_prompt_plain_text.2.2.1 "Maggi"⟩

theorem isAlwaysSafe_lt (b : Nat) (h : isAlwaysSafe b = true) : b < 127 := by
  unfold isAlwaysSafe at h
  simp only [Bool.or_eq_true, Bool.and_eq_true, decide_eq_true_eq, beq_iff_eq] at h
  omega

theorem safe_byte_urlChar :
    ∀ b : Nat, b < 127 → isAlwaysSafe b = true → isUrlChar (Char.ofNat b) = true := by
  decide

theorem hexDigit_urlChar (m : Nat) : isUrlChar (hexDigit m) = true := by
  have hlt : ∀ k : Nat, k < 16 → isUrlChar (hexDigit k) = true := by decide
  rcases Nat.lt_or_ge m 16 with h | h
  · exact hlt m h
  · unfold hexDigit
    rw [List.getD_eq_default]
    · rfl
    · have hlen : ("0123456789ABCDEF".data).length = 16 := rfl
      omega

theorem quoteByte_urlChar (b : Nat) (c : Char) (hc : c ∈ quoteByte b) :
    isUrlChar c = true := by
  unfold quoteByte at hc
  split at hc
  · next h =>
      simp only [List.mem_singleton] at hc
      subst hc
      exact safe_byte_urlChar b (isAlwaysSafe_lt b h) h
  · simp only [List.mem_cons, List.mem_singleton, List.not_mem_nil, or_false] at hc
    rcases hc with rfl | rfl | rfl
    · rfl
    · exact hexDigit_urlChar _
    · exact hexDigit_urlChar _

/-- Claim C9: the image lookup string is the URL-encoded prompt substituted
into the fixed template with the fixed dimensions `width=400&height=400`
(line 202); the encoding is a genuine percent-encoding — every character of
the encoded prompt is an unreserved/safe URL character, a `%`, or a hex
digit.  The pipeline only builds the string (the model is a pure function);
the URL is handed to the presentation layer, which lets the browser fetch
it. -/
theorem C9_image_url_template :
    (∀ p, image_url p = "https://image.pollinations.ai/prompt/" ++ quote p
      ++ "?width=400&height=400&nologo=true") ∧
    containsSub "width=400&height=400".data (image_url "").data = true ∧
    quote "a bowl of hot whole wheat noodles" =
      "a%20bowl%20of%20hot%20whole%20wheat%20noodles" ∧
    ∀ p, ∀ c ∈ (quote p).data, isUrlChar c = true := by
  refine ⟨fun p => rfl, by decide, by decide, ?_⟩
  intro p c hc
  have hq : (quote p).data = (p.data.flatMap charUtf8).flatMap quoteByte := rfl
  rw [hq, List.mem_flatMap] at hc
  obtain ⟨b, _, hcb⟩ := hc
  exact quoteByte_urlChar b c hcb

/-- Witness for C9 at the concrete prompt "apple pie". -/
theorem C9_image_url_template_witness :
    image_url "apple pie" =
      "https://image.pollinations.ai/prompt/apple%20pie?width=400&height=400&nologo=true" ∧
    isUrlChar 'p' = true :=
  ⟨(C9_image_url_template.1 "apple pie").trans (by decide),
    C9_image_url_template.2.2.2 "apple pie" 'p' (by decide)⟩

theorem okOuts_append (a b : List Out) : okOuts (a ++ b) = (okOuts a && okOuts b) :=
  List.all_append

theorem okOuts_renderInsights (items : List Json) :
    okOuts (renderInsights items) = true := by
  induction items with
  | nil => rfl
  | cons v t ih =>
      show (!isErrorOut (Out.insight v) && okOuts (renderInsights t)) = true
      rw [ih]
      rfl

theorem okOuts_renderAdditiveItem (a : Json) :
    okOuts (renderAdditiveItem a).1 = true := by
  unfold renderAdditiveItem
  repeat' split
  all_goals rfl

theorem okOuts_renderAdditives (adds : List Json) :
    okOuts (renderAdditives adds).1 = true := by
  induction adds with
  | nil => rfl
  | cons a t ih =>
      unfold renderAdditives
      split
      · next outs e heq =>
          have h := okOuts_renderAdditiveItem a
          rw [heq] at h
          exact h
      · next outs heq =>
          have h := okOuts_renderAdditiveItem a
          rw [heq] at h
          show okOuts (outs ++ (renderAdditives t).1) = true
          rw [okOuts_append, show okOuts outs = true from h, ih]
          rfl

theorem okOuts_scanBody (data : Json) : okOuts (scanBody data).1 = true := by
  unfold scanBody
  repeat' split
  all_goals first
    | rfl
    | (simp only [okOuts_append, okOuts_renderInsights, okOuts_renderAdditives]; rfl)

theorem okOuts_renderAltItem (a : Json) : okOuts (renderAltItem a).1 = true := by
  unfold renderAltItem
  repeat' split
  all_goals rfl

theorem okOuts_renderAltList (alts : List Json) :
    okOuts (renderAltList alts).1 = true := by
  induction alts with
  | nil => rfl
  | cons a t ih =>
      unfold renderAltList
      split
      · next outs e heq =>
          have h := okOuts_renderAltItem a
          rw [heq] at h
          exact h
      · next outs heq =>
          have h := okOuts_renderAltItem a
          rw [heq] at h
          show okOuts (outs ++ (renderAltList t).1) = true
          rw [okOuts_append, show okOuts outs = true from h, ih]
          rfl

theorem okOuts_searchBody (q : String) (data : Json) :
    okOuts (searchBody q data).1 = true := by
  unfold searchBody
  repeat' split
  all_goals first
    | rfl
    | (simp only [okOuts_append, okOuts_renderAltList]; rfl)

/-- Claim C7 (counterexample): the claim says no partial result is ever
exposed.  On the response `{"product_identified": "Cola"}` the title and
the opening insights markup are rendered (lines 139-143) before the access
to the missing `psychological_insights` raises at line 144 — so the user
sees part of a result together with the error message: validation is not
all-or-nothing. -/
theorem C7_partial_result_exposed :
    nav_scan (.ok (.obj [("product_identified", .str "Cola")])) =
      [Out.title "COLA", Out.cardOpen, Out.insightsHeader,
        Out.errorMsg (.keyError "psychological_insights")] ∧
    Out.title "COLA" ∈ nav_scan (.ok (.obj [("product_identified", .str "Cola")])) ∧
    Out.errorMsg (.keyError "psychological_insights") ∈
      nav_scan (.ok (.obj [("product_identified", .str "Cola")])) := by
  have h : nav_scan (.ok (.obj [("product_identified", .str "Cola")])) =
      [Out.title "COLA", Out.cardOpen, Out.insightsHeader,
        Out.errorMsg (.keyError "psychological_insights")] := rfl
  refine ⟨h, ?_, ?_⟩ <;> rw [h] <;> simp

/-- Claim C7 (amended): every failing request surfaces exactly one
human-readable error message, appended after whatever was already rendered
— the body before it contains no error message, but it is not rolled back,
so a partially populated result can stay visible.  All-or-nothing holds
only for failures that precede the first render: a JSON parse failure, or
a response whose very first accessed field (`product_identified`) is
missing. -/
theorem C7_single_error_message :
    (∀ parsed, ∃ body, okOuts body = true ∧
      (nav_scan parsed = body ∨ ∃ e, nav_scan parsed = body ++ [Out.errorMsg e])) ∧
    (∀ q parsed, ∃ body, okOuts body = true ∧
      (nav_search q parsed = body ∨
        ∃ e, nav_search q parsed = body ++ [Out.searchErrorMsg e])) ∧
    (∀ msg, nav_scan (.error msg) = [Out.errorMsg (.jsonDecodeError msg)]) ∧
    (∀ fields, lookupField fields "product_identified" = none →
      nav_scan (.ok (.obj fields)) = [Out.errorMsg (.keyError "product_identified")]) := by
  refine ⟨?_, ?_, fun msg => rfl, ?_⟩
  · intro parsed
    cases parsed with
    | error msg => exact ⟨[], rfl, Or.inr ⟨.jsonDecodeError msg, rfl⟩⟩
    | ok data =>
        have hb := okOuts_scanBody data
        rcases hsb : scanBody data with ⟨outs, r⟩
        rw [hsb] at hb
        cases r with
        | none => exact ⟨outs, hb, Or.inl (by simp [nav_scan, hsb])⟩
        | some e => exact ⟨outs, hb, Or.inr ⟨e, by simp [nav_scan, hsb]⟩⟩
  · intro q parsed
    by_cases hq : q = ""
    · exact ⟨[], rfl, Or.inl (by simp [nav_search, hq])⟩
    · cases parsed with
      | error msg =>
          exact ⟨[], rfl, Or.inr ⟨.jsonDecodeError msg, by simp [nav_search, hq]⟩⟩
      | ok data =>
          have hb := okOuts_searchBody q data
          rcases hsb : searchBody q data with ⟨outs, r⟩
          rw [hsb] at hb
          cases r with
          | none => exact ⟨outs, hb, Or.inl (by simp [nav_search, hq, hsb])⟩
          | some e => exact ⟨outs, hb, Or.inr ⟨e, by simp [nav_search, hq, hsb]⟩⟩
  · intro fields h
    simp [nav_scan, scanBody, getItem, h]

/-- Witness for C7 (amended) at concrete failing requests. -/
theorem C7_single_error_message_witness :
    nav_scan (.error "Expecting value") =
      [Out.errorMsg (.jsonDecodeError "Expecting value")] ∧
    nav_scan (.ok (.obj [("foo", .null)])) =
      [Out.errorMsg (.keyError "product_identified")] :=
  ⟨C7_single_error_message.2.2.1 "Expecting value",
    C7_single_error_message.2.2.2 [("foo", .null)] rfl⟩

/-- Claim C5 (counterexample): the claim says a response missing the
product-name field yields a typed `ValidationError::SchemaMismatch` naming
the field.  The code has no such type: on the empty-object response the
failure is the untyped Python `KeyError` raised by the late dict lookup of
line 139, surfaced by the blanket handler — precisely the "untyped late
lookup failure" the claim rules out. -/
theorem C5_schemaMismatch_never_produced :
    nav_scan (.ok (.obj [])) = [Out.errorMsg (.keyError "product_identified")] ∧
    classifyFailure (.keyError "product_identified") =
      FailureKind.untypedLookup "product_identified" ∧
    FailureKind.untypedLookup "product_identified" ≠
      FailureKind.schemaMismatch "product_identified" :=
  ⟨rfl, rfl, by decide⟩

/-- Claim C5 (amended): a response missing the product-name field makes the
scanner raise a Python `KeyError` naming the offending field before
anything is rendered; the blanket handler surfaces it as a single error
message; no default or empty value is substituted.  The failure is an
untyped late lookup failure, never the typed `SchemaMismatch` of the spec:
no exception the code can raise classifies as one. -/
theorem C5_missing_field_is_keyError :
    (∀ fields, lookupField fields "product_identified" = none →
      scanBody (.obj fields) = ([], some (.keyError "product_identified")) ∧
      nav_scan (.ok (.obj fields)) = [Out.errorMsg (.keyError "product_identified")]) ∧
    ∀ (e : PyError) (f : String), classifyFailure e ≠ FailureKind.schemaMismatch f := by
  constructor
  · intro fields h
    constructor
    · simp [scanBody, getItem, h]
    · simp [nav_scan, scanBody, getItem, h]
  · intro e f
    cases e <;> simp [classifyFailure]

/-- Witness for C5 (amended) at the empty-object response. -/
theorem C5_missing_field_is_keyError_witness :
    scanBody (.obj []) = ([], some (.keyError "product_identified")) ∧
    classifyFailure (.keyError "product_identified") ≠
      FailureKind.schemaMismatch "product_identified" :=
  ⟨(C5_missing_field_is_keyError.1 [] rfl).1,
    C5_missing_field_is_keyError.2 _ _⟩

theorem renderAltItem_toJson (a : Alternative) :
    renderAltItem (Alternative.toJson a) = (altCardOuts a, none) := rfl

theorem renderAltList_map (l : List Alternative) :
    renderAltList (l.map Alternative.toJson) = (l.flatMap altCardOuts, none) := by
  induction l with
  | nil => rfl
  | cons a t ih =>
      simp only [List.map_cons, renderAltList, renderAltItem_toJson, ih,
        List.flatMap_cons]

theorem altCardOuts_length (l : List Alternative) :
    (l.flatMap altCardOuts).length = 5 * l.length := by
  induction l with
  | nil => rfl
  | cons a t ih =>
      simp only [List.flatMap_cons, List.length_append, List.length_cons, ih]
      simp [altCardOuts]
      omega

/-- Claim C10: for every successfully parsed alternatives response, the
search tab renders one suggestion card (five output items) per element of
the `alternatives` list, in list order, whatever the length of the list —
the loop of line 195 has no length check, so a response with fewer or more
than 3 entries is fully displayed without error; the count of exactly 3 is
requested only in the instruction text. -/
theorem C10_any_length_accepted :
    ∀ (q : String) (l : List Alternative), q ≠ "" →
      nav_search q (.ok (.obj [("alternatives", .arr (l.map Alternative.toJson))])) =
        Out.betterChoicesHeader q :: l.flatMap altCardOuts ∧
      (l.flatMap altCardOuts).length = 5 * l.length ∧
      containsSub "Provide 3".data (alt_prompt q).data = true := by
  intro q l hq
  refine ⟨?_, altCardOuts_length l, ?_⟩
  · unfold nav_search
    rw [if_neg hq]
    simp only [searchBody, getItem, lookupField, List.foldl_cons, List.foldl_nil,
      reduceIte, pyIter, renderAltList_map, List.singleton_append]
  · rw [alt_prompt_data]
    refine containsSub_append_left _ _ _ (containsSub_append_left _ _ _ ?_)
    decide

/-- Witness for C10 with a 2-element response (fewer than the requested 3). -/
theorem C10_any_length_accepted_witness :
    nav_search "Doritos" (.ok (.obj [("alternatives", .arr
      (([⟨"Roasted chickpeas", "High protein, baked not fried",
          "crispy roasted chickpeas in a bowl"⟩,
        ⟨"Air-popped popcorn", "Whole grain and light",
          "a bowl of air-popped popcorn"⟩] : List Alternative).map
        Alternative.toJson))])) =
      Out.betterChoicesHeader "Doritos" ::
        ([⟨"Roasted chickpeas", "High protein, baked not fried",
            "crispy roasted chickpeas in a bowl"⟩,
          ⟨"Air-popped popcorn", "Whole grain and light",
            "a bowl of air-popped popcorn"⟩] : List Alternative).flatMap altCardOuts :=
  (C10_any_length_accepted "Doritos" _ (by decide)).1

end NutriScan
